import Mathlib

/-!
Verification of the futsal-checker repository (LaBOLA scraper + LINE notifier).

Shallow embedding notes:
* Python strings are modelled as Lean `String`; Python substring test
  `pat in s` is `strContains s pat`, `s.startswith(pat)` is
  `strStartsWith s pat`, both defined by structural recursion over the
  underlying character lists.
* Python sets of strings are modelled as duplicate-free lists with
  `setAdd` (add is a no-op when the element is present).
* The regex `\d` of `load_dates` is modelled as an ASCII digit test, and
  Python `str.strip()` as removal of ASCII whitespace at both ends; the
  repository only feeds these ASCII date lines.
* File-system and network effects are made explicit: the persisted
  sent-urls file is a list of lines threaded through `NotifierState`, the
  push endpoint is a parameter `net : Event → DeliveryResult`, and each
  `print` site of the notifier becomes a `LogMsg` constructor.
-/

namespace FutsalChecker

/-- `listStartsWith pat l` : `pat` is a prefix of `l` (Python `startswith`). -/
def listStartsWith : List Char → List Char → Bool
  | [], _ => true
  | _ :: _, [] => false
  | p :: ps, c :: cs => p == c && listStartsWith ps cs

/-- `listHasSeg pat l` : `pat` occurs contiguously in `l` (Python `in`). -/
def listHasSeg (pat : List Char) : List Char → Bool
  | [] => pat.isEmpty
  | c :: rest => listStartsWith pat (c :: rest) || listHasSeg pat rest

/-- Python `pat in s` for strings. -/
def strContains (s pat : String) : Bool := listHasSeg pat.data s.data

/-- Python `s.startswith(pat)`. -/
def strStartsWith (s pat : String) : Bool := listStartsWith pat.data s.data

/-- ASCII whitespace stripped by Python `str.strip()` on the inputs this
repository handles. -/
def isPySpace (c : Char) : Bool :=
  c = ' ' || c = '\t' || c = '\n' || c = '\r' || c = '\x0b' || c = '\x0c'

/-- Python `line.strip()`. -/
def pyStrip (s : String) : String :=
  ⟨((s.data.dropWhile isPySpace).reverse.dropWhile isPySpace).reverse⟩

/-- Fuel-indexed worker for `pyReplace`; the fuel starts at the length of
the scanned list and each step consumes at least one character. -/
def pyReplaceAux (pat rep : List Char) : Nat → List Char → List Char
  | _, [] => []
  | 0, s => s
  | fuel + 1, c :: rest =>
    if listStartsWith pat (c :: rest) && !pat.isEmpty then
      rep ++ pyReplaceAux pat rep fuel (List.drop (pat.length - 1) rest)
    else
      c :: pyReplaceAux pat rep fuel rest

/-- Python `s.replace(pat, rep)` (left-to-right, non-overlapping,
replaces every occurrence); modelled for the nonempty patterns the
repository uses. -/
def pyReplace (s pat rep : String) : String :=
  ⟨pyReplaceAux pat.data rep.data s.data.length s.data⟩

/-- `Event` dataclass of `src/scraper.py`. -/
structure Event where
  title : String
  facility : String
  url : String
  date : String
deriving DecidableEq, Repr

/-- `LaBOLAScraper.BASE_URL`. -/
def BASE_URL : String := "https://labola.jp"

/-- `LaBOLAScraper.REQUIRED_KEYWORDS`. -/
def REQUIRED_KEYWORDS : List String := ["受付け中", "大会"]

/-- `LaBOLAScraper.EXCLUDED_KEYWORD`. -/
def EXCLUDED_KEYWORD : String := "千住大橋"

/-- `LaBOLAScraper._is_valid_card(card_text, title, status)`; returns the
`(is_valid, reason)` pair of the source. -/
def is_valid_card (card_text title status : String) : Bool × String :=
  if strContains card_text EXCLUDED_KEYWORD then
    (false, "除外キーワード「" ++ EXCLUDED_KEYWORD ++ "」が含まれています")
  else if REQUIRED_KEYWORDS.contains "受付け中" && status != "受付け中" then
    (false, "ステータスが「受付け中」ではありません（現在: "
      ++ (if status = "" then "不明" else status) ++ "）")
  else if REQUIRED_KEYWORDS.contains "大会" && !strContains card_text "大会" then
    (false, "必須キーワード「大会」が見つかりません")
  else
    (true, "OK")

/-- The `<a>` inside a card's title element: `link.get("href", "")` is
modelled by an optional attribute, `link.get_text(strip=True)` by `text`. -/
structure Link where
  href : Option String
  text : String
deriving DecidableEq, Repr

/-- The `p.c-eventcard__title` element of a card: only its inner link
matters to the source. -/
structure TitleElem where
  link : Option Link
deriving DecidableEq, Repr

/-- A `p.c-eventcard__text` element: its stripped text and, when a nested
`<a>` is present, that link's stripped text. -/
structure TextElem where
  text : String
  linkText : Option String
deriving DecidableEq, Repr

/-- One `div.c-eventcard` region as the source reads it with
BeautifulSoup: the card's full concatenated text
(`get_text(separator=" ", strip=True)`), the optional title element, the
optional status element's stripped text, and the list of text elements. -/
structure Card where
  cardText : String
  title_elem : Option TitleElem
  status_elem : Option String
  text_elems : List TextElem
deriving DecidableEq, Repr

/-- Worker for the regex search `re.search(r"【(.+?)】", card_text)` once a
`【` has been consumed: non-greedy, so the capture stops at the first `】`
after at least one captured character; `.` does not match a newline. -/
def bracketCapture (acc : List Char) : List Char → Option (List Char)
  | [] => none
  | c :: rest =>
    if c = '】' && !acc.isEmpty then some acc.reverse
    else if c = '\n' then none
    else bracketCapture (c :: acc) rest

/-- Leftmost match of `re.search(r"【(.+?)】", ·)`: scan for a `【` whose
capture attempt succeeds, otherwise keep scanning. -/
def bracketSearch : List Char → Option (List Char)
  | [] => none
  | c :: rest =>
    if c = '【' then
      match bracketCapture [] rest with
      | some cap => some cap
      | none => bracketSearch rest
    else bracketSearch rest

/-- `LaBOLAScraper._extract_facility_from_card(card)`: first text element
starting with `主催者：` wins (its nested link's text if present, else the
text with the label removed by `str.replace`); otherwise the bracketed
name `【...】` captured from the card's full text; otherwise `""`. -/
def _extract_facility_from_card (card : Card) : String :=
  match card.text_elems.find? (fun e => strStartsWith e.text "主催者：") with
  | some e =>
    match e.linkText with
    | some lt => lt
    | none => pyReplace e.text "主催者：" ""
  | none =>
    match bracketSearch card.cardText.data with
    | some cap => ⟨cap⟩
    | none => ""

/-- Line 110 of `src/scraper.py`:
`full_url = href if href.startswith("http") else f"{self.BASE_URL}{href}"`. -/
def resolveHref (href : String) : String :=
  if strStartsWith href "http" then href else BASE_URL ++ href

/-- `LaBOLAScraper.parse_events(soup, date)` restricted to its per-card
logic: cards missing the title element or its link are skipped, the href
is resolved to an absolute URL, a missing status element yields status
`""`, empty titles are skipped, and the card is kept iff `_is_valid_card`
accepts it. -/
def parse_events (cards : List Card) (date : String) : List Event :=
  cards.filterMap fun card =>
    match card.title_elem with
    | none => none
    | some te =>
      match te.link with
      | none => none
      | some lk =>
        let href := lk.href.getD ""
        let title := lk.text
        let full_url := resolveHref href
        let status := card.status_elem.getD ""
        let facility := _extract_facility_from_card card
        if title = "" then none
        else if (is_valid_card card.cardText title status).1 then
          some { title := title, facility := facility, url := full_url, date := date }
        else none

/-- The observable log events of `LaBOLAScraper.load_dates`. -/
inductive LoadLog where
  | errNotFound
  | warnInvalid (line : String)
deriving DecidableEq, Repr

/-- The regex test `re.match(r"^\d{8}$", date)` on an already-stripped
line: exactly eight digits. -/
def isDate8 (s : String) : Bool :=
  s.data.length == 8 && s.data.all Char.isDigit

/-- `LaBOLAScraper.load_dates()`. The file is `none` when missing; `some
fileLines` gives its raw lines. Returns the validated dates together with
the log events the source prints. -/
def load_dates (file : Option (List String)) : List String × List LoadLog :=
  match file with
  | none => ([], [.errNotFound])
  | some fileLines =>
    let dates := fileLines.filterMap fun l =>
      let s := pyStrip l
      if s = "" then none else some s
    dates.foldl
      (fun acc d =>
        if isDate8 d then (acc.1 ++ [d], acc.2)
        else (acc.1, acc.2 ++ [.warnInvalid d]))
      (([], []) : List String × List LoadLog)

/-- Python set semantics for `self.sent_urls.add(url)` on a
duplicate-free list model. -/
def setAdd (s : List String) (u : String) : List String :=
  if s.contains u then s else s ++ [u]

/-- The notifier's mutable state: the persisted `sent_urls` file as a
list of appended lines, and the in-memory `self.sent_urls` set. -/
structure NotifierState where
  fileLines : List String
  sentUrls : List String
deriving DecidableEq, Repr

/-- The two credentials of `LineNotifier`; `none` models an unset
environment variable. Python truthiness also makes `""` falsy. -/
structure Config where
  channel_access_token : Option String
  user_id : Option String
deriving DecidableEq, Repr

/-- Python truthiness of an optional string. -/
def truthy : Option String → Bool
  | none => false
  | some s => s != ""

/-- `self.channel_access_token and self.user_id` both truthy (the guard
at the top of `send_notification`, negated). -/
def credsPresent (cfg : Config) : Bool :=
  truthy cfg.channel_access_token && truthy cfg.user_id

/-- `LineNotifier._load_sent_urls()`: the set comprehension
`{line.strip() for line in f if line.strip()}` over the file's lines
(empty when the file is missing), as a duplicate-free list. -/
def _load_sent_urls (file : Option (List String)) : List String :=
  match file with
  | none => []
  | some lines => (((lines.map pyStrip).filter (fun s => s != "")).dedup)

/-- `LineNotifier._save_sent_url(url)`: append `url` as a line to the
persisted file and add it to the in-memory set. -/
def _save_sent_url (st : NotifierState) (url : String) : NotifierState :=
  { fileLines := st.fileLines ++ [url], sentUrls := setAdd st.sentUrls url }

/-- `LineNotifier.is_new_event(event)`. -/
def is_new_event (st : NotifierState) (e : Event) : Bool :=
  !st.sentUrls.contains e.url

/-- `LineNotifier.filter_new_events(events)`. -/
def filter_new_events (st : NotifierState) (events : List Event) : List Event :=
  events.filter (is_new_event st)

/-- Outcome of the `requests.post` call to the push endpoint: an HTTP
response with status and body text, or a raised `RequestException`. -/
inductive DeliveryResult where
  | response (status : Nat) (text : String)
  | exception (msg : String)
deriving DecidableEq, Repr

/-- One `LogMsg` per `print` site of the notifier. -/
inductive LogMsg where
  | credsError
  | okSent (title : String)
  | apiError (status : Nat) (text : String)
  | requestError (msg : String)
  | infoNoNew
  | infoSending (n : Nat)
  | infoComplete (succeeded failed : Nat)
deriving DecidableEq, BEq, Repr

/-- Result of one `send_notification` call: the returned boolean, the
notifier state afterwards, how many network calls were made, and the log
lines printed. -/
structure SendResult where
  ok : Bool
  state : NotifierState
  networkCalls : Nat
  logs : List LogMsg
deriving DecidableEq, Repr

/-- `LineNotifier.send_notification(event)`, with the push endpoint
abstracted as `net`: missing credentials fail before any network call;
an HTTP 200 response commits the URL via `_save_sent_url` and returns
`true`; any other response or an exception returns `false` with the
state unchanged. -/
def send_notification (cfg : Config) (net : Event → DeliveryResult)
    (st : NotifierState) (e : Event) : SendResult :=
  if !credsPresent cfg then
    { ok := false, state := st, networkCalls := 0, logs := [.credsError] }
  else
    match net e with
    | .response status text =>
      if status = 200 then
        { ok := true, state := _save_sent_url st e.url, networkCalls := 1,
          logs := [.okSent e.title] }
      else
        { ok := false, state := st, networkCalls := 1,
          logs := [.apiError status text] }
    | .exception msg =>
      { ok := false, state := st, networkCalls := 1, logs := [.requestError msg] }

/-- Result of `notify_all`: the returned `(success, failed)` counts plus
the final state, network-call count and logs. -/
structure NotifyResult where
  counts : Nat × Nat
  state : NotifierState
  networkCalls : Nat
  logs : List LogMsg
deriving DecidableEq, Repr

/-- The `for event in new_events` loop of `notify_all`, threading the
state and the running counters. -/
def notifyLoop (cfg : Config) (net : Event → DeliveryResult) :
    List Event → NotifierState → Nat → Nat → Nat → List LogMsg → NotifyResult
  | [], st, s, f, nc, logs =>
    { counts := (s, f), state := st, networkCalls := nc,
      logs := logs ++ [.infoComplete s f] }
  | e :: rest, st, s, f, nc, logs =>
    let r := send_notification cfg net st e
    if r.ok then
      notifyLoop cfg net rest r.state (s + 1) f (nc + r.networkCalls) (logs ++ r.logs)
    else
      notifyLoop cfg net rest r.state s (f + 1) (nc + r.networkCalls) (logs ++ r.logs)

/-- `LineNotifier.notify_all(events)`: filter against the ledger once,
then deliver each remaining event in order. -/
def notify_all (cfg : Config) (net : Event → DeliveryResult)
    (st : NotifierState) (events : List Event) : NotifyResult :=
  let new_events := filter_new_events st events
  if new_events.isEmpty then
    { counts := (0, 0), state := st, networkCalls := 0, logs := [.infoNoNew] }
  else
    notifyLoop cfg net new_events st 0 0 0 [.infoSending new_events.length]

/-- The notifier state `LineNotifier.__init__` builds from the persisted
sent-urls file. -/
def initState (sentFile : Option (List String)) : NotifierState :=
  { fileLines := sentFile.getD [], sentUrls := _load_sent_urls sentFile }

/-- `main()` of `main.py`, with the scrape result and the ledger file as
inputs: returns the process exit code. Note the source passes the full
`events` list (not `new_events`) to `notify_all`, which re-filters. -/
def mainRun (cfg : Config) (net : Event → DeliveryResult)
    (sentFile : Option (List String)) (events : List Event) : Nat :=
  if events.isEmpty then 0
  else
    let notifier := initState sentFile
    let new_events := filter_new_events notifier events
    if new_events.isEmpty then 0
    else
      let r := notify_all cfg net notifier events
      if r.counts.2 = 0 then 0 else 1

/-- Number of occurrences of a log message in a log list. -/
def countLog (m : LogMsg) : List LogMsg → Nat
  | [] => 0
  | x :: rest => (if x = m then 1 else 0) + countLog m rest

/-! ## Helper lemmas -/

lemma countLog_append (m : LogMsg) (a b : List LogMsg) :
    countLog m (a ++ b) = countLog m a + countLog m b := by
  induction a with
  | nil => simp [countLog]
  | cons x rest ih => simp [countLog, ih]; omega

lemma listStartsWith_self_append (p l : List Char) :
    listStartsWith p (p ++ l) = true := by
  induction p with
  | nil => rfl
  | cons c cs ih => simp [listStartsWith, ih]

/-- The base origin prepended by `resolveHref` itself starts with
`"http"`. -/
lemma strStartsWith_base_append (href : String) :
    strStartsWith (BASE_URL ++ href) "http" = true := by
  have hb : BASE_URL = "http" ++ "s://labola.jp" := by decide
  rw [hb, String.append_assoc]
  show listStartsWith "http".data ("http" ++ ("s://labola.jp" ++ href)).data = true
  rw [String.data_append]
  exact listStartsWith_self_append _ _

/-- The status check of `_is_valid_card` is reached with an active
`受付け中` requirement. -/
lemma required_contains_status : REQUIRED_KEYWORDS.contains "受付け中" = true := by
  decide

lemma required_contains_taikai : REQUIRED_KEYWORDS.contains "大会" = true := by
  decide

/-! ## C2: exclusion precedence -/

/-- C2: whenever the card's full text contains the excluded keyword
`千住大橋`, `_is_valid_card` rejects the card with the exclusion reason,
whatever the status and whatever other keywords are present — so the
exclusion check takes precedence over every other condition. -/
theorem c2_exclusion_precedence (card_text title status : String)
    (h : strContains card_text EXCLUDED_KEYWORD = true) :
    is_valid_card card_text title status
      = (false, "除外キーワード「千住大橋」が含まれています") := by
  simp only [is_valid_card, h, if_true]
  decide

/-- C2 witness: a card text containing the excluded keyword is rejected
even with the accepting status and the required keyword present. -/
theorem c2_exclusion_precedence_witness :
    strContains "千住大橋 受付け中 大会" EXCLUDED_KEYWORD = true ∧
    (is_valid_card "千住大橋 受付け中 大会" "タイトル" "受付け中").1 = false := by
  refine ⟨by decide, ?_⟩
  rw [c2_exclusion_precedence "千住大橋 受付け中 大会" "タイトル" "受付け中" (by decide)]

/-! ## C3: AND semantics of the acceptance predicate -/

/-- C3: on a card without the excluded keyword, `_is_valid_card` accepts
iff the status equals `受付け中` exactly and the card text contains
`大会`; moreover an empty status (the value used when the status element
is missing) is always rejected, and a missing status element yields the
empty status string in `parse_events`. -/
theorem c3_and_semantics (card_text title status : String)
    (h : strContains card_text EXCLUDED_KEYWORD = false) :
    ((is_valid_card card_text title status).1 = true ↔
      (status = "受付け中" ∧ strContains card_text "大会" = true)) ∧
    (is_valid_card card_text title "").1 = false ∧
    (∀ card : Card, card.status_elem = none → card.status_elem.getD "" = "") := by
  have hm1 : "受付け中" ∈ REQUIRED_KEYWORDS := by decide
  have hm2 : "大会" ∈ REQUIRED_KEYWORDS := by decide
  refine ⟨?_, ?_, ?_⟩
  · by_cases hs : status = "受付け中" <;>
      by_cases hk : strContains card_text "大会" = true <;>
        simp [is_valid_card, h, hs, hk, hm1, hm2]
  · have hne : (("" : String) != "受付け中") = true := by decide
    simp [is_valid_card, h, hne, hm1]
  · intro card hc
    simp [hc]

/-- C3 witness: accepting status with the keyword is accepted; at the
same input the characterization's right-hand side holds. -/
theorem c3_and_semantics_witness :
    strContains "フットサル大会募集" EXCLUDED_KEYWORD = false ∧
    ((is_valid_card "フットサル大会募集" "タイトル" "受付け中").1 = true ↔
      ("受付け中" = "受付け中" ∧ strContains "フットサル大会募集" "大会" = true)) :=
  ⟨by decide, (c3_and_semantics "フットサル大会募集" "タイトル" "受付け中" (by decide)).1⟩

/-! ## C4: filter_new_events is the order-preserving new-url filter -/

/-- C4: `filter_new_events` is an order-preserving filter (a sublist of
its input) keeping exactly the events whose url is not in the ledger
set; any event whose url is already in the ledger is excluded. -/
theorem c4_filter_new (st : NotifierState) (events : List Event) :
    List.Sublist (filter_new_events st events) events ∧
    (∀ e : Event, e ∈ filter_new_events st events ↔
      (e ∈ events ∧ e.url ∉ st.sentUrls)) ∧
    (∀ e : Event, e ∈ events → e.url ∈ st.sentUrls →
      e ∉ filter_new_events st events) := by
  refine ⟨List.filter_sublist events, ?_, ?_⟩
  · intro e
    simp [filter_new_events, is_new_event, List.mem_filter]
  · intro e _ hmem hin
    have h2 := (List.mem_filter.mp hin).2
    simp [is_new_event] at h2
    exact h2 hmem

/-- C4 witness: with `"u1"` already in the ledger, the event carrying
`"u1"` is excluded from the filtered list. -/
theorem c4_filter_new_witness :
    (⟨"t1", "", "u1", "20260207"⟩ : Event) ∉
      filter_new_events ⟨["u1"], ["u1"]⟩
        [⟨"t1", "", "u1", "20260207"⟩, ⟨"t2", "", "u2", "20260207"⟩] :=
  (c4_filter_new ⟨["u1"], ["u1"]⟩
      [⟨"t1", "", "u1", "20260207"⟩, ⟨"t2", "", "u2", "20260207"⟩]).2.2
    ⟨"t1", "", "u1", "20260207"⟩ (by simp) (by decide)

/-! ## C9: load_dates -/

lemma strip_filterMap (lines : List String) :
    (lines.filterMap fun l =>
      let s := pyStrip l
      if s = "" then none else some s)
      = (lines.map pyStrip).filter (fun s => s != "") := by
  induction lines with
  | nil => rfl
  | cons l rest ih =>
    by_cases hl : pyStrip l = "" <;>
      simp [List.filterMap_cons, List.filter_cons, hl, ih]

lemma load_dates_foldl (l : List String) (acc : List String × List LoadLog) :
    (l.foldl
      (fun acc d =>
        if isDate8 d then (acc.1 ++ [d], acc.2)
        else (acc.1, acc.2 ++ [.warnInvalid d]))
      acc)
      = (acc.1 ++ l.filter isDate8,
         acc.2 ++ (l.filter (fun d => !isDate8 d)).map LoadLog.warnInvalid) := by
  induction l generalizing acc with
  | nil => simp
  | cons d rest ih =>
    by_cases hd : isDate8 d = true <;>
      simp [List.foldl_cons, List.filter_cons, hd, ih, List.append_assoc]

/-- C9: a missing dates file yields the empty date list (with the
not-found report); otherwise the dates are exactly the stripped
non-empty lines that are eight ASCII digits, in file order, and each
stripped non-empty line failing the format test is logged invalid, in
order. -/
theorem c9_load_dates :
    load_dates none = ([], [.errNotFound]) ∧
    ∀ lines : List String,
      (load_dates (some lines)).1
        = ((lines.map pyStrip).filter (fun s => s != "")).filter isDate8 ∧
      (load_dates (some lines)).2
        = (((lines.map pyStrip).filter (fun s => s != "")).filter
            (fun s => !isDate8 s)).map LoadLog.warnInvalid := by
  refine ⟨rfl, fun lines => ?_⟩
  simp only [load_dates, strip_filterMap, load_dates_foldl]
  simp

/-! ## C1: ledger commit iff confirmed delivery -/

/-- C1: `send_notification` returns `true` exactly when the credentials
are present and the push call returns HTTP 200; on success the resulting
state is `_save_sent_url` applied to the old state (the URL appended to
the persisted file and added to the in-memory set) and a network call
was made, and on any failure — missing credentials, exception, non-200
status — the state is unchanged, so a commit never happens without a
confirmed send. -/
theorem c1_commit_iff_success (cfg : Config) (net : Event → DeliveryResult)
    (st : NotifierState) (e : Event) :
    ((send_notification cfg net st e).ok = true ↔
      (credsPresent cfg = true ∧ ∃ t, net e = .response 200 t)) ∧
    ((send_notification cfg net st e).ok = true →
      (send_notification cfg net st e).state = _save_sent_url st e.url ∧
      (send_notification cfg net st e).networkCalls = 1) ∧
    ((send_notification cfg net st e).ok = false →
      (send_notification cfg net st e).state = st) := by
  cases hc : credsPresent cfg with
  | false => simp [send_notification, hc]
  | true =>
    cases hn : net e with
    | response status text =>
      by_cases hs : status = 200
      · subst hs
        simp [send_notification, hc, hn]
      · simp [send_notification, hc, hn, hs]
    | exception msg =>
      simp [send_notification, hc, hn]

/-- C1 witness: with credentials present and a 200 response the send
succeeds and commits the URL. -/
theorem c1_commit_iff_success_witness :
    (send_notification ⟨some "T", some "U"⟩
        (fun _ => .response 200 "ok") ⟨[], []⟩
        ⟨"t", "", "u", "20260207"⟩).ok = true ∧
    (send_notification ⟨some "T", some "U"⟩
        (fun _ => .response 200 "ok") ⟨[], []⟩
        ⟨"t", "", "u", "20260207"⟩).state
      = _save_sent_url ⟨[], []⟩ "u" :=
  ⟨by decide,
    ((c1_commit_iff_success ⟨some "T", some "U"⟩
        (fun _ => .response 200 "ok") ⟨[], []⟩
        ⟨"t", "", "u", "20260207"⟩).2.1 (by decide)).1⟩

/-! ## C5: URLs are absolute -/

/-- C5: every event produced by `parse_events` has a url obtained by
`resolveHref` from some href (the href itself when it starts with
`"http"`, otherwise the base origin prepended), hence every produced url
starts with `"http"`; and on the spec's example href the resolution
yields `https://labola.jp/r/shop/1/event/show/2/`. -/
theorem c5_absolute_url (cards : List Card) (date : String) (e : Event)
    (he : e ∈ parse_events cards date) :
    (∃ href, e.url = resolveHref href) ∧
    strStartsWith e.url "http" = true ∧
    resolveHref "/r/shop/1/event/show/2/"
      = "https://labola.jp/r/shop/1/event/show/2/" := by
  have hmain : ∃ href, e.url = resolveHref href := by
    rw [parse_events, List.mem_filterMap] at he
    obtain ⟨card, -, hf⟩ := he
    split at hf
    · cases hf
    · split at hf
      · cases hf
      · dsimp only at hf
        split at hf
        · cases hf
        · split at hf
          · cases hf
            exact ⟨_, rfl⟩
          · cases hf
  refine ⟨hmain, ?_, by decide⟩
  obtain ⟨href, hurl⟩ := hmain
  rw [hurl, resolveHref]
  by_cases hh : strStartsWith href "http" = true
  · rw [if_pos hh]; exact hh
  · rw [if_neg hh]; exact strStartsWith_base_append href

/-- The spec's scenario card: accepting status, text containing `大会`,
no excluded keyword, title `【Test】大会募集`, relative href. -/
def scenarioCard : Card :=
  { cardText := "受付け中 大会 【Test】大会募集",
    title_elem := some { link := some { href := some "/r/shop/1/event/show/2/",
                                        text := "【Test】大会募集" } },
    status_elem := some "受付け中",
    text_elems := [] }

/-- The event `parse_events` extracts from `scenarioCard`. -/
def scenarioEvent : Event :=
  { title := "【Test】大会募集", facility := "Test",
    url := "https://labola.jp/r/shop/1/event/show/2/", date := "20260207" }

/-- C5 witness: the scenario card's extracted event satisfies the
absolute-url properties. -/
theorem c5_absolute_url_witness :
    (∃ href, scenarioEvent.url = resolveHref href) ∧
    strStartsWith scenarioEvent.url "http" = true ∧
    resolveHref "/r/shop/1/event/show/2/"
      = "https://labola.jp/r/shop/1/event/show/2/" :=
  c5_absolute_url [scenarioCard] "20260207" scenarioEvent (by decide)

/-! ## C6: missing credentials -/

/-- With missing credentials every `send_notification` fails immediately,
makes no network call, leaves the state unchanged and prints the
credentials error. -/
lemma send_notification_noCreds (cfg : Config) (net : Event → DeliveryResult)
    (st : NotifierState) (e : Event) (h : credsPresent cfg = false) :
    send_notification cfg net st e
      = { ok := false, state := st, networkCalls := 0, logs := [.credsError] } := by
  simp [send_notification, h]

/-- The notify loop under missing credentials: every event fails, the
state is untouched, and the credentials error is printed once per
event. -/
lemma notifyLoop_noCreds (cfg : Config) (net : Event → DeliveryResult)
    (h : credsPresent cfg = false) :
    ∀ (l : List Event) (st : NotifierState) (s f nc : Nat) (logs : List LogMsg),
      notifyLoop cfg net l st s f nc logs
        = { counts := (s, f + l.length), state := st, networkCalls := nc,
            logs := logs ++ l.map (fun _ => .credsError)
              ++ [.infoComplete s (f + l.length)] } := by
  intro l
  induction l with
  | nil => intro st s f nc logs; simp [notifyLoop]
  | cons e rest ih =>
    intro st s f nc logs
    rw [notifyLoop]
    simp only [send_notification_noCreds cfg net st e h]
    rw [if_neg (by simp)]
    rw [ih]
    simp [List.append_assoc]
    omega

lemma countLog_replicate (n : Nat) :
    countLog .credsError (List.replicate n .credsError) = n := by
  induction n with
  | zero => rfl
  | succ n ih =>
    simp [List.replicate, countLog, ih]
    omega

/-- C6 counterexample to the claim as stated: with the access token
unset and two new events, the run fails both deliveries with no network
call but prints the configuration failure twice, not once. -/
theorem c6_counterexample :
    credsPresent ⟨none, some "U"⟩ = false ∧
    (filter_new_events ⟨[], []⟩
        [⟨"a", "", "u1", "20260207"⟩, ⟨"b", "", "u2", "20260207"⟩]).length = 2 ∧
    (notify_all ⟨none, some "U"⟩ (fun _ => .exception "boom") ⟨[], []⟩
        [⟨"a", "", "u1", "20260207"⟩, ⟨"b", "", "u2", "20260207"⟩]).counts = (0, 2) ∧
    (notify_all ⟨none, some "U"⟩ (fun _ => .exception "boom") ⟨[], []⟩
        [⟨"a", "", "u1", "20260207"⟩, ⟨"b", "", "u2", "20260207"⟩]).networkCalls = 0 ∧
    countLog .credsError
      (notify_all ⟨none, some "U"⟩ (fun _ => .exception "boom") ⟨[], []⟩
        [⟨"a", "", "u1", "20260207"⟩, ⟨"b", "", "u2", "20260207"⟩]).logs ≠ 1 := by
  decide

/-- C6 (amended): when either credential is missing, every delivery
attempt fails with no network call ever attempted, the configuration
failure is reported once per attempted delivery (n times for n new
events, not once per run), the state is unchanged, and `notify_all` over
n new events returns `(0, n)`. -/
theorem c6_no_creds (cfg : Config) (net : Event → DeliveryResult)
    (st : NotifierState) (events : List Event)
    (h : credsPresent cfg = false) :
    (notify_all cfg net st events).counts
      = (0, (filter_new_events st events).length) ∧
    (notify_all cfg net st events).networkCalls = 0 ∧
    (notify_all cfg net st events).state = st ∧
    countLog .credsError (notify_all cfg net st events).logs
      = (filter_new_events st events).length := by
  rw [notify_all]
  cases hfe : (filter_new_events st events).isEmpty with
  | true =>
    rw [if_pos rfl]
    rw [List.isEmpty_iff] at hfe
    simp [hfe, countLog]
  | false =>
    rw [if_neg (by simp)]
    rw [notifyLoop_noCreds cfg net h]
    simp [countLog_append, countLog_replicate, countLog]

/-- C6 witness: the amended statement at a concrete missing-token
configuration with two new events. -/
theorem c6_no_creds_witness :
    credsPresent ⟨none, some "U"⟩ = false ∧
    (notify_all ⟨none, some "U"⟩ (fun _ => .exception "boom") ⟨[], []⟩
        [⟨"a", "", "u1", "20260207"⟩, ⟨"b", "", "u2", "20260207"⟩]).counts
      = (0, (filter_new_events ⟨[], []⟩
          [⟨"a", "", "u1", "20260207"⟩, ⟨"b", "", "u2", "20260207"⟩]).length) :=
  ⟨by decide,
    (c6_no_creds ⟨none, some "U"⟩ (fun _ => .exception "boom") ⟨[], []⟩
      [⟨"a", "", "u1", "20260207"⟩, ⟨"b", "", "u2", "20260207"⟩] (by decide)).1⟩

/-! ## C7: process exit code -/

lemma notify_all_filter_empty (cfg : Config) (net : Event → DeliveryResult)
    (st : NotifierState) (events : List Event)
    (h : filter_new_events st events = []) :
    notify_all cfg net st events
      = { counts := (0, 0), state := st, networkCalls := 0, logs := [.infoNoNew] } := by
  rw [notify_all]
  rw [if_pos (by simp [h])]

/-- C7: the exit code of `main` is 0 exactly when the failed-delivery
count of `notify_all` is 0 — in particular 0 when there are no
qualifying new events (including an empty scrape), and 1 as soon as at
least one delivery failed. -/
theorem c7_exit_code (cfg : Config) (net : Event → DeliveryResult)
    (sentFile : Option (List String)) (events : List Event) :
    mainRun cfg net sentFile events
      = (if (notify_all cfg net (initState sentFile) events).counts.2 = 0
          then 0 else 1) ∧
    (filter_new_events (initState sentFile) events = [] →
      mainRun cfg net sentFile events = 0) ∧
    ((notify_all cfg net (initState sentFile) events).counts.2 ≠ 0 →
      mainRun cfg net sentFile events = 1) := by
  have hmain : mainRun cfg net sentFile events
      = (if (notify_all cfg net (initState sentFile) events).counts.2 = 0
          then 0 else 1) := by
    rw [mainRun]
    cases hev : events.isEmpty with
    | true =>
      rw [List.isEmpty_iff] at hev
      subst hev
      rw [notify_all_filter_empty cfg net _ [] rfl]
      simp
    | false =>
      rw [if_neg (by simp [hev])]
      cases hfe : (filter_new_events (initState sentFile) events).isEmpty with
      | true =>
        rw [List.isEmpty_iff] at hfe
        rw [notify_all_filter_empty cfg net _ events hfe]
        simp [hfe]
      | false =>
        rw [if_neg (by simp [List.isEmpty_iff] at hfe ⊢; exact hfe)]
  refine ⟨hmain, ?_, ?_⟩
  · intro h
    rw [hmain, notify_all_filter_empty cfg net _ events h]
    simp
  · intro h
    rw [hmain, if_neg h]

/-- C7 witness: one new event whose delivery returns HTTP 500 makes the
exit code 1. -/
theorem c7_exit_code_witness :
    (notify_all ⟨some "T", some "U"⟩ (fun _ => .response 500 "err")
        (initState none) [⟨"a", "", "u1", "20260207"⟩]).counts.2 ≠ 0 ∧
    mainRun ⟨some "T", some "U"⟩ (fun _ => .response 500 "err")
        none [⟨"a", "", "u1", "20260207"⟩] = 1 :=
  ⟨by decide,
    (c7_exit_code ⟨some "T", some "U"⟩ (fun _ => .response 500 "err")
      none [⟨"a", "", "u1", "20260207"⟩]).2.2 (by decide)⟩

/-! ## C8: facility extraction tiers -/

/-- A card whose organizer text element contains the label `主催者：`
twice: the claim's "label prefix stripped" predicts `A主催者：B`, the
source's `str.replace` removes both occurrences. -/
def doubleLabelCard : Card :=
  { cardText := "",
    title_elem := none,
    status_elem := none,
    text_elems := [{ text := "主催者：A主催者：B", linkText := none }] }

/-- C8 counterexample to the claim as stated: on an organizer field with
no nested link whose text contains the label twice, the extracted
facility is the text with every occurrence of the label removed, not the
text with only the label prefix stripped. -/
theorem c8_counterexample :
    _extract_facility_from_card doubleLabelCard = "AB" ∧
    _extract_facility_from_card doubleLabelCard ≠ "A主催者：B" := by
  decide

/-- C8 (amended): facility extraction tries exactly two tiers in order,
stopping at the first success. If some text element's text begins with
`主催者：` then the first such element decides the result — its nested
link's text when a link is present, otherwise its text with every
occurrence of the label removed — regardless of any bracketed name in
the card text, so an organizer field always beats the bracket pattern.
Only when no such element exists is the capture of `【name】` in the
card's full text used, and the facility is `""` when that fails too. -/
theorem c8_facility_tiers (card : Card) :
    (∀ te : TextElem,
      card.text_elems.find? (fun e => strStartsWith e.text "主催者：") = some te →
      _extract_facility_from_card card
        = match te.linkText with
          | some lt => lt
          | none => pyReplace te.text "主催者：" "") ∧
    (card.text_elems.find? (fun e => strStartsWith e.text "主催者：") = none →
      _extract_facility_from_card card
        = match bracketSearch card.cardText.data with
          | some cap => ⟨cap⟩
          | none => "") := by
  constructor
  · intro te hte
    rw [_extract_facility_from_card, hte]
  · intro hnone
    rw [_extract_facility_from_card, hnone]

/-- A card with both an organizer field and a bracketed name in the card
text. -/
def bothSourcesCard : Card :=
  { cardText := "xx【施設名】yy",
    title_elem := none,
    status_elem := none,
    text_elems := [{ text := "主催者：FC東京", linkText := none }] }

/-- C8 witness: on a card carrying both an organizer field and a
bracketed name, the organizer field wins (and evaluates to `FC東京`, not
to the bracketed `施設名`). -/
theorem c8_facility_tiers_witness :
    _extract_facility_from_card bothSourcesCard
      = pyReplace "主催者：FC東京" "主催者：" "" ∧
    _extract_facility_from_card bothSourcesCard = "FC東京" ∧
    bracketSearch bothSourcesCard.cardText.data = some "施設名".data := by
  refine ⟨?_, by decide, by decide⟩
  have h := (c8_facility_tiers bothSourcesCard).1
    ⟨"主催者：FC東京", none⟩ (by decide)
  exact h

/-! ## C10: the batch is filtered once, duplicates are delivered twice -/

/-- C10: `notify_all` filters against the ledger once, before any
delivery; two events in the batch sharing a url that is absent from the
ledger are therefore both delivered (two network calls, counts `(2,0)`)
and the url is committed — appended to the persisted file — twice: the
commit after the first delivery does not remove the second event from
the already-computed batch. -/
theorem c10_duplicate_urls (cfg : Config) (net : Event → DeliveryResult)
    (st : NotifierState) (e1 e2 : Event) (u t1 t2 : String)
    (h1 : e1.url = u) (h2 : e2.url = u)
    (hnew : st.sentUrls.contains u = false)
    (hcreds : credsPresent cfg = true)
    (hn1 : net e1 = .response 200 t1) (hn2 : net e2 = .response 200 t2) :
    filter_new_events st [e1, e2] = [e1, e2] ∧
    (notify_all cfg net st [e1, e2]).counts = (2, 0) ∧
    (notify_all cfg net st [e1, e2]).networkCalls = 2 ∧
    (notify_all cfg net st [e1, e2]).state.fileLines
      = st.fileLines ++ [u, u] := by
  have hnew' : u ∉ st.sentUrls := by simpa using hnew
  have hfil : filter_new_events st [e1, e2] = [e1, e2] := by
    simp [filter_new_events, is_new_event, List.filter_cons, h1, h2, hnew']
  have hsend1 : send_notification cfg net st e1
      = { ok := true, state := _save_sent_url st e1.url, networkCalls := 1,
          logs := [.okSent e1.title] } := by
    simp [send_notification, hcreds, hn1]
  have hsend2 : ∀ st' : NotifierState, send_notification cfg net st' e2
      = { ok := true, state := _save_sent_url st' e2.url, networkCalls := 1,
          logs := [.okSent e2.title] } := by
    intro st'
    simp [send_notification, hcreds, hn2]
  refine ⟨hfil, ?_⟩
  rw [notify_all, hfil]
  rw [if_neg (by simp)]
  rw [notifyLoop, hsend1]
  rw [if_pos rfl]
  rw [notifyLoop, hsend2]
  rw [if_pos rfl]
  rw [notifyLoop]
  simp [_save_sent_url, h1, h2, List.append_assoc]

/-- C10 witness: a concrete batch with a duplicated new url is delivered
twice and its url committed twice. -/
theorem c10_duplicate_urls_witness :
    filter_new_events ⟨["v"], ["v"]⟩
        [⟨"a", "", "u", "20260207"⟩, ⟨"b", "", "u", "20260207"⟩]
      = [⟨"a", "", "u", "20260207"⟩, ⟨"b", "", "u", "20260207"⟩] ∧
    (notify_all ⟨some "T", some "U"⟩ (fun _ => .response 200 "ok") ⟨["v"], ["v"]⟩
        [⟨"a", "", "u", "20260207"⟩, ⟨"b", "", "u", "20260207"⟩]).counts = (2, 0) ∧
    (notify_all ⟨some "T", some "U"⟩ (fun _ => .response 200 "ok") ⟨["v"], ["v"]⟩
        [⟨"a", "", "u", "20260207"⟩, ⟨"b", "", "u", "20260207"⟩]).networkCalls = 2 ∧
    (notify_all ⟨some "T", some "U"⟩ (fun _ => .response 200 "ok") ⟨["v"], ["v"]⟩
        [⟨"a", "", "u", "20260207"⟩, ⟨"b", "", "u", "20260207"⟩]).state.fileLines
      = ["v"] ++ ["u", "u"] :=
  c10_duplicate_urls ⟨some "T", some "U"⟩ (fun _ => .response 200 "ok")
    ⟨["v"], ["v"]⟩ ⟨"a", "", "u", "20260207"⟩ ⟨"b", "", "u", "20260207"⟩
    "u" "ok" "ok" rfl rfl (by decide) (by decide) rfl rfl

end FutsalChecker
